import Mathlib

/-!
Shallow embedding of the seat-allocation and subscription-ledger logic of the
Library-Management-System repository (server/storage.ts = `DatabaseStorage`, and the
route handlers of server/routes.ts), together with theorems settling the frozen
claims about it.

Modelling conventions:
* the relational store is a `Store` structure of row lists; `db.insert ... returning`
  appends a row whose serial `id` is taken from a per-table counter that starts at 1;
* `db.update ... where eq(id, x)` maps over the list updating every row whose id
  matches (serial ids are unique in reachable states);
* decimal/`parseFloat` money amounts are modelled as `ℚ` (the bookkeeping uses only
  `+`, `-`, `Math.max 0`); `String(x)` round-trips are identities in this model;
* `ORDER BY` clauses are omitted: no claim concerns presentation order;
* status fields stay the literal strings of the source ("active", "occupied", ...);
* JS truthiness of `payment.subscriptionId` is `Option Nat` being `some sid` with
  `sid ≠ 0`.
-/

/-- A row of the `seats` table (fields the ledger logic touches). -/
structure Seat where
  id : Nat
  libraryId : Nat
  seatNumber : Nat
  status : String
  isActive : Bool
deriving DecidableEq, Repr

/-- A row of the `shifts` table. -/
structure Shift where
  id : Nat
  libraryId : Nat
  name : String
  startTime : String
  endTime : String
  totalHours : Nat
  isActive : Bool
deriving DecidableEq, Repr

/-- A row of the `seat_allocations` table. -/
structure SeatAllocation where
  id : Nat
  seatId : Nat
  shiftId : Nat
  studentId : Nat
  status : String
  gender : String
  isActive : Bool
deriving DecidableEq, Repr

/-- A row of the `students` table. -/
structure Student where
  id : Nat
  libraryId : Nat
  studentId : String
  studentName : String
  gender : String
  isActive : Bool
deriving DecidableEq, Repr

/-- A row of the `subscriptions` table. -/
structure Subscription where
  id : Nat
  libraryId : Nat
  studentId : Nat
  seatId : Nat
  shiftIds : List Nat
  totalHours : Nat
  shiftStart : String
  shiftEnd : String
  planStartDate : String
  planEndDate : String
  subscriptionCost : ℚ
  paidAmount : ℚ
  discount : ℚ
  pendingAmount : ℚ
  status : String
  isActive : Bool
deriving DecidableEq, Repr

/-- A row of the `payments` table. -/
structure Payment where
  id : Nat
  libraryId : Nat
  studentId : Nat
  subscriptionId : Option Nat
  amount : ℚ
  paymentDate : String
  paymentMode : String
  status : String
  isActive : Bool
deriving DecidableEq, Repr

/-- The relational store: one list per table plus the serial-id counters. -/
structure Store where
  seats : List Seat
  shifts : List Shift
  seatAllocations : List SeatAllocation
  students : List Student
  subscriptions : List Subscription
  payments : List Payment
  nextSeatAllocationId : Nat
  nextStudentId : Nat
  nextSubscriptionId : Nat
  nextPaymentId : Nat
deriving DecidableEq, Repr

/-- The empty database: no rows, serial counters at 1. -/
def emptyStore : Store :=
  { seats := [], shifts := [], seatAllocations := [], students := [],
    subscriptions := [], payments := [],
    nextSeatAllocationId := 1, nextStudentId := 1,
    nextSubscriptionId := 1, nextPaymentId := 1 }

/-- `getSeatsByLibrary`: active seats of a library. -/
def getSeatsByLibrary (s : Store) (libraryId : Nat) : List Seat :=
  s.seats.filter (fun st => st.libraryId == libraryId && st.isActive)

/-- `getShiftsByLibrary`: active shifts of a library. -/
def getShiftsByLibrary (s : Store) (libraryId : Nat) : List Shift :=
  s.shifts.filter (fun sh => sh.libraryId == libraryId && sh.isActive)

/-- `getVacantSeatsForShifts`: the library's active seats minus those having an
active occupied allocation in one of the requested shifts, further restricted to
seats whose own `status` field is `"vacant"`. -/
def getVacantSeatsForShifts (s : Store) (libraryId : Nat) (shiftIds : List Nat) :
    List Seat :=
  let allSeats := getSeatsByLibrary s libraryId
  let occupiedAllocations := s.seatAllocations.filter (fun a =>
    shiftIds.contains a.shiftId && a.status == "occupied" && a.isActive)
  let occupiedSeatIds := occupiedAllocations.map (fun a => a.seatId)
  allSeats.filter (fun st => !(occupiedSeatIds.contains st.id) && st.status == "vacant")

/-- `getSubscription`: first subscription row with the given id. -/
def getSubscription (s : Store) (id : Nat) : Option Subscription :=
  s.subscriptions.find? (fun sub => sub.id == id)

/-- `getActiveSubscriptionByStudent`: first row with the student's id,
status `"active"` and `isActive = true`. -/
def getActiveSubscriptionByStudent (s : Store) (studentId : Nat) :
    Option Subscription :=
  s.subscriptions.find? (fun sub =>
    sub.studentId == studentId && sub.status == "active" && sub.isActive)

/-- `generateStudentId`: `COALESCE(MAX(id), 0) + 1` over the WHOLE `students`
table — the `libraryId` argument is not used in the query — formatted as
`STD` + 6-digit zero-padded serial (`String(nextId).padStart(6, "0")`). -/
def generateStudentId (s : Store) (libraryId : Nat) : String :=
  let maxId := (s.students.map (fun st => st.id)).foldl max 0
  let nextId := maxId + 1
  let digits := toString nextId
  "STD" ++ String.mk (List.replicate (6 - digits.length) '0') ++ digits

/-- Insert data for a student row (`InsertStudent`, fields the model keeps). -/
structure InsertStudent where
  libraryId : Nat
  studentId : String
  studentName : String
  gender : String
deriving DecidableEq, Repr

/-- `createStudent`: insert a student row, serial id from the counter. -/
def createStudent (s : Store) (d : InsertStudent) : Store × Student :=
  let created : Student :=
    { id := s.nextStudentId, libraryId := d.libraryId, studentId := d.studentId,
      studentName := d.studentName, gender := d.gender, isActive := true }
  ({ s with students := s.students ++ [created],
             nextStudentId := s.nextStudentId + 1 }, created)

/-- Insert data for a subscription row (`InsertSubscription`). -/
structure InsertSubscription where
  libraryId : Nat
  studentId : Nat
  seatId : Nat
  shiftIds : List Nat
  totalHours : Nat
  shiftStart : String
  shiftEnd : String
  planStartDate : String
  planEndDate : String
  subscriptionCost : ℚ
  paidAmount : ℚ
  discount : ℚ
  pendingAmount : ℚ
  status : String
deriving DecidableEq, Repr

/-- `createSubscription`: insert a subscription row, serial id from the counter. -/
def createSubscription (s : Store) (d : InsertSubscription) : Store × Subscription :=
  let created : Subscription :=
    { id := s.nextSubscriptionId, libraryId := d.libraryId, studentId := d.studentId,
      seatId := d.seatId, shiftIds := d.shiftIds, totalHours := d.totalHours,
      shiftStart := d.shiftStart, shiftEnd := d.shiftEnd,
      planStartDate := d.planStartDate, planEndDate := d.planEndDate,
      subscriptionCost := d.subscriptionCost, paidAmount := d.paidAmount,
      discount := d.discount, pendingAmount := d.pendingAmount,
      status := d.status, isActive := true }
  ({ s with subscriptions := s.subscriptions ++ [created],
             nextSubscriptionId := s.nextSubscriptionId + 1 }, created)

/-- Insert data for a payment row (`InsertPayment`). -/
structure InsertPayment where
  libraryId : Nat
  studentId : Nat
  subscriptionId : Option Nat
  amount : ℚ
  paymentDate : String
  paymentMode : String
  status : String
deriving DecidableEq, Repr

/-- `createPayment`: insert the payment row; then, when `payment.subscriptionId`
is truthy and that subscription exists, recompute
`newPaid = paidAmount + amount`, `newPending = subscriptionCost - newPaid - discount`
and write back `paidAmount := newPaid`, `pendingAmount := Math.max 0 newPending`. -/
def createPayment (s : Store) (p : InsertPayment) : Store × Payment :=
  let created : Payment :=
    { id := s.nextPaymentId, libraryId := p.libraryId, studentId := p.studentId,
      subscriptionId := p.subscriptionId, amount := p.amount,
      paymentDate := p.paymentDate, paymentMode := p.paymentMode,
      status := p.status, isActive := true }
  let s1 : Store :=
    { s with payments := s.payments ++ [created],
             nextPaymentId := s.nextPaymentId + 1 }
  let s2 : Store :=
    match p.subscriptionId with
    | none => s1
    | some sid =>
      if sid == 0 then s1
      else
        match getSubscription s1 sid with
        | none => s1
        | some sub =>
          let newPaid := sub.paidAmount + p.amount
          let newPending := sub.subscriptionCost - newPaid - sub.discount
          { s1 with subscriptions := s1.subscriptions.map (fun b =>
              if b.id == sid then
                { b with paidAmount := newPaid, pendingAmount := max 0 newPending }
              else b) }
  (s2, created)

/-- `cancelSubscription`: unconditionally set status `"cancelled"` on the row. -/
def cancelSubscription (s : Store) (id : Nat) : Store :=
  { s with subscriptions := s.subscriptions.map (fun b =>
      if b.id == id then { b with status := "cancelled" } else b) }

/-- `renewSubscription`: set status `"expired"` on every row of the student with
status `"active"`, then insert the new subscription row. -/
def renewSubscription (s : Store) (studentId : Nat) (d : InsertSubscription) :
    Store × Subscription :=
  let s1 : Store :=
    { s with subscriptions := s.subscriptions.map (fun b =>
        if b.studentId == studentId && b.status == "active" then
          { b with status := "expired" }
        else b) }
  createSubscription s1 d

/-- `createSeatAllocation`: insert an allocation row (declared in the storage
layer; no route handler ever calls it). -/
def createSeatAllocation (s : Store) (a : SeatAllocation) : Store :=
  let created : SeatAllocation := { a with id := s.nextSeatAllocationId }
  { s with seatAllocations := s.seatAllocations ++ [created],
           nextSeatAllocationId := s.nextSeatAllocationId + 1 }

/-- Request body of `POST /api/students` after destructuring, with
`subscriptionCost`/`paidAmount`/`discount` already `parseFloat`ed. -/
structure RegistrationRequest where
  libraryId : Nat
  studentName : String
  gender : String
  shiftIds : List Nat
  seatId : Nat
  planStartDate : String
  planEndDate : String
  subscriptionCost : ℚ
  paidAmount : ℚ
  discount : ℚ
deriving DecidableEq, Repr

/-- The `POST /api/students` handler: generate the student code, insert the
student, derive `totalHours`/`shiftStart`/`shiftEnd` from the selected shifts,
insert the subscription with `pendingAmount = max 0 (cost - paid - discount)`,
and, when `paid > 0`, call `createPayment` for the initial payment. The handler
performs no seat-availability check and inserts no seat-allocation rows. -/
def createRegistration (s : Store) (r : RegistrationRequest) :
    Store × Student × Subscription :=
  let code := generateStudentId s r.libraryId
  let res1 := createStudent s
    { libraryId := r.libraryId, studentId := code,
      studentName := r.studentName, gender := r.gender }
  let s1 := res1.1
  let student := res1.2
  let allShifts := getShiftsByLibrary s1 r.libraryId
  let selectedShifts := allShifts.filter (fun sh => r.shiftIds.contains sh.id)
  let totalHours := selectedShifts.foldl (fun acc sh => acc + sh.totalHours) 0
  let shiftStart :=
    match (selectedShifts.map (fun sh => sh.startTime)).min? with
    | some v => if v == "" then "06:00" else v
    | none => "06:00"
  let shiftEnd :=
    match (selectedShifts.map (fun sh => sh.endTime)).max? with
    | some v => if v == "" then "12:00" else v
    | none => "12:00"
  let pending := max 0 (r.subscriptionCost - r.paidAmount - r.discount)
  let res2 := createSubscription s1
    { libraryId := r.libraryId, studentId := student.id, seatId := r.seatId,
      shiftIds := r.shiftIds, totalHours := totalHours,
      shiftStart := shiftStart, shiftEnd := shiftEnd,
      planStartDate := r.planStartDate, planEndDate := r.planEndDate,
      subscriptionCost := r.subscriptionCost, paidAmount := r.paidAmount,
      discount := r.discount, pendingAmount := pending, status := "active" }
  let s2 := res2.1
  let subscription := res2.2
  let s3 :=
    if 0 < r.paidAmount then
      (createPayment s2
        { libraryId := r.libraryId, studentId := student.id,
          subscriptionId := some subscription.id, amount := r.paidAmount,
          paymentDate := r.planStartDate, paymentMode := "cash",
          status := "completed" }).1
    else s2
  (s3, student, subscription)

/-- Request body of `POST /api/subscriptions/renew/:studentId`. -/
structure RenewRequest where
  studentId : Nat
  libraryId : Nat
  planStartDate : String
  planEndDate : String
  subscriptionCost : ℚ
  paidAmount : ℚ
  discount : ℚ
deriving DecidableEq, Repr

/-- Outcome of the renewal route: 404 when no active subscription exists,
otherwise the freshly inserted subscription. -/
inductive RenewResult where
  | notFound : RenewResult
  | renewed : Subscription → RenewResult
deriving DecidableEq, Repr

/-- The `POST /api/subscriptions/renew/:studentId` handler: look up the active
subscription (404 if none), call `renewSubscription` with the same
seatId/shiftIds/plan-name fields and the fresh plan dates/amounts, then, when
`paid > 0`, call `createPayment` dated at the new plan start. -/
def renewHandler (s : Store) (r : RenewRequest) : Store × RenewResult :=
  match getActiveSubscriptionByStudent s r.studentId with
  | none => (s, RenewResult.notFound)
  | some activeSub =>
    let pending := max 0 (r.subscriptionCost - r.paidAmount - r.discount)
    let res := renewSubscription s r.studentId
      { libraryId := r.libraryId, studentId := r.studentId,
        seatId := activeSub.seatId, shiftIds := activeSub.shiftIds,
        totalHours := activeSub.totalHours, shiftStart := activeSub.shiftStart,
        shiftEnd := activeSub.shiftEnd, planStartDate := r.planStartDate,
        planEndDate := r.planEndDate, subscriptionCost := r.subscriptionCost,
        paidAmount := r.paidAmount, discount := r.discount,
        pendingAmount := pending, status := "active" }
    let s1 := res.1
    let subscription := res.2
    let s2 :=
      if 0 < r.paidAmount then
        (createPayment s1
          { libraryId := r.libraryId, studentId := r.studentId,
            subscriptionId := some subscription.id, amount := r.paidAmount,
            paymentDate := r.planStartDate, paymentMode := "cash",
            status := "completed" }).1
      else s1
    (s2, RenewResult.renewed subscription)

/-- Modelled from the spec: the client invokes `PATCH /api/subscriptions/:id/close`
but no handler for that route exists in the server sources; per the spec (§4.5),
Close "sets status=closed ... identically to cancel" as far as the subscription
row is concerned. -/
def closeSubscription (s : Store) (id : Nat) : Store :=
  { s with subscriptions := s.subscriptions.map (fun b =>
      if b.id == id then { b with status := "closed" } else b) }

/-- The ledger operations reachable through the API: registration, payment
application, renewal, cancellation and closure. -/
inductive Op where
  | register : RegistrationRequest → Op
  | payment : InsertPayment → Op
  | renew : RenewRequest → Op
  | cancel : Nat → Op
  | close : Nat → Op

/-- Apply one ledger operation to the store. -/
def applyOp (s : Store) : Op → Store
  | Op.register r => (createRegistration s r).1
  | Op.payment p => (createPayment s p).1
  | Op.renew r => (renewHandler s r).1
  | Op.cancel id => cancelSubscription s id
  | Op.close id => closeSubscription s id

/-- Run a sequence of ledger operations from the empty store. -/
def runOps (ops : List Op) : Store :=
  ops.foldl applyOp emptyStore

/-- A store is reachable when some operation sequence produces it. -/
def Reachable (s : Store) : Prop :=
  ∃ ops : List Op, runOps ops = s

/-- The vacancy condition as the claim words it (spec-side definition, for
comparison with `getVacantSeatsForShifts`): an active seat of the library, not
`"blocked"`, with no active occupied allocation on any requested shift. -/
def vacantSpecSeat (s : Store) (libraryId : Nat) (shiftIds : List Nat)
    (st : Seat) : Prop :=
  st ∈ getSeatsByLibrary s libraryId ∧ st.status ≠ "blocked" ∧
  ∀ a ∈ s.seatAllocations,
    a.isActive = true → a.status = "occupied" → a.seatId = st.id →
      a.shiftId ∉ shiftIds

/-- The student-code generator as the claim words it (spec-side definition):
the maximum is taken only over the students OF THE GIVEN LIBRARY. -/
def generateStudentIdSpec (s : Store) (libraryId : Nat) : String :=
  let libStudents := s.students.filter (fun st => st.libraryId == libraryId)
  let maxId := (libStudents.map (fun st => st.id)).foldl max 0
  let nextId := maxId + 1
  let digits := toString nextId
  "STD" ++ String.mk (List.replicate (6 - digits.length) '0') ++ digits

/-- The row update `createPayment` writes back: `paidAmount := old + amount`,
`pendingAmount := max 0 (cost - (old + amount) - discount)`, applied to every
row whose id matches the payment's `subscriptionId`. -/
def payUpd (p : InsertPayment) (sub : Subscription) (sid : Nat) :
    Subscription → Subscription := fun b =>
  if b.id == sid then
    { b with paidAmount := sub.paidAmount + p.amount,
             pendingAmount :=
               max 0 (sub.subscriptionCost - (sub.paidAmount + p.amount) - sub.discount) }
  else b

/-- The per-row financial invariant of the spec:
`pendingAmount = max 0 (subscriptionCost - paidAmount - discount)`. -/
def subOk (b : Subscription) : Prop :=
  b.pendingAmount = max 0 (b.subscriptionCost - b.paidAmount - b.discount)

/-- Store well-formedness carried through every ledger operation: the
subscription serial counter is at least 1, every subscription row satisfies the
pending-amount formula, row ids are in `[1, nextSubscriptionId)` and pairwise
distinct. -/
def StoreInv (s : Store) : Prop :=
  1 ≤ s.nextSubscriptionId ∧
  (∀ b ∈ s.subscriptions, subOk b) ∧
  (∀ b ∈ s.subscriptions, 1 ≤ b.id ∧ b.id < s.nextSubscriptionId) ∧
  List.Pairwise (fun a b => a.id ≠ b.id) s.subscriptions

/-- Registration request of the spec's example scenario: one shift, seat 1,
cost 1000, paid 400, discount 0. -/
def regExample : RegistrationRequest :=
  { libraryId := 1, studentName := "S", gender := "male", shiftIds := [1],
    seatId := 1, planStartDate := "2025-01-01", planEndDate := "2025-02-01",
    subscriptionCost := 1000, paidAmount := 400, discount := 0 }

/-- A seeded store: library 1 has seat 1 (vacant) and the Morning shift 1, and
seat 1 already carries an active occupied allocation for shift 1 (student 1). -/
def storeOccupied : Store :=
  { seats := [{ id := 1, libraryId := 1, seatNumber := 1, status := "vacant",
                isActive := true }],
    shifts := [{ id := 1, libraryId := 1, name := "Morning",
                 startTime := "06:00", endTime := "12:00", totalHours := 6,
                 isActive := true }],
    seatAllocations := [{ id := 1, seatId := 1, shiftId := 1, studentId := 1,
                          status := "occupied", gender := "male",
                          isActive := true }],
    students := [{ id := 1, libraryId := 1, studentId := "STD000001",
                   studentName := "T", gender := "male", isActive := true }],
    subscriptions := [], payments := [],
    nextSeatAllocationId := 2, nextStudentId := 2,
    nextSubscriptionId := 1, nextPaymentId := 1 }

/-- A seeded store with seat 1 and shift 1 of library 1 and no allocations. -/
def storeSeatShift : Store :=
  { seats := [{ id := 1, libraryId := 1, seatNumber := 1, status := "vacant",
                isActive := true }],
    shifts := [{ id := 1, libraryId := 1, name := "Morning",
                 startTime := "06:00", endTime := "12:00", totalHours := 6,
                 isActive := true }],
    seatAllocations := [], students := [], subscriptions := [], payments := [],
    nextSeatAllocationId := 1, nextStudentId := 1,
    nextSubscriptionId := 1, nextPaymentId := 1 }

/-- A subscription row of student 1 on seat 1/shift 1 with the given status. -/
def subWithStatus (status : String) : Subscription :=
  { id := 1, libraryId := 1, studentId := 1, seatId := 1, shiftIds := [1],
    totalHours := 6, shiftStart := "06:00", shiftEnd := "12:00",
    planStartDate := "2025-01-01", planEndDate := "2025-02-01",
    subscriptionCost := 1000, paidAmount := 1000, discount := 0,
    pendingAmount := 0, status := status, isActive := true }

/-- A store holding exactly one subscription row with the given status and one
active occupied seat allocation for the same student. -/
def storeWithSub (status : String) : Store :=
  { seats := [], shifts := [],
    seatAllocations := [{ id := 1, seatId := 1, shiftId := 1, studentId := 1,
                          status := "occupied", gender := "male",
                          isActive := true }],
    students := [{ id := 1, libraryId := 1, studentId := "STD000001",
                   studentName := "T", gender := "male", isActive := true }],
    subscriptions := [subWithStatus status], payments := [],
    nextSeatAllocationId := 2, nextStudentId := 2,
    nextSubscriptionId := 2, nextPaymentId := 1 }

/-- A renewal request for student 1: new plan, cost 1200, paid 0, discount 0. -/
def renewExample : RenewRequest :=
  { studentId := 1, libraryId := 1, planStartDate := "2025-02-01",
    planEndDate := "2025-03-01", subscriptionCost := 1200, paidAmount := 0,
    discount := 0 }

/-- A store with one student in library 1 (id 1) and one in library 2 (id 2). -/
def storeTwoLibraries : Store :=
  { seats := [], shifts := [], seatAllocations := [],
    students := [{ id := 1, libraryId := 1, studentId := "STD000001",
                   studentName := "A", gender := "male", isActive := true },
                 { id := 2, libraryId := 2, studentId := "STD000002",
                   studentName := "B", gender := "female", isActive := true }],
    subscriptions := [], payments := [],
    nextSeatAllocationId := 1, nextStudentId := 3,
    nextSubscriptionId := 1, nextPaymentId := 1 }

/-- A store whose only seat (library 1, active) has status `"occupied"` in the
informational `seats.status` column and no allocation rows at all. -/
def storeStatusOccupiedSeat : Store :=
  { seats := [{ id := 1, libraryId := 1, seatNumber := 1, status := "occupied",
                isActive := true }],
    shifts := [], seatAllocations := [], students := [], subscriptions := [],
    payments := [],
    nextSeatAllocationId := 1, nextStudentId := 1,
    nextSubscriptionId := 1, nextPaymentId := 1 }

/-- The row update `renewSubscription` performs before inserting the successor:
every row of the student with status `"active"` is marked `"expired"`. -/
def expireUpd (studentId : Nat) : Subscription → Subscription := fun b =>
  if b.studentId == studentId && b.status == "active" then
    { b with status := "expired" }
  else b

/-- A follow-up payment of 100 against subscription 1. -/
def payExample : InsertPayment :=
  { libraryId := 1, studentId := 1, subscriptionId := some 1, amount := 100,
    paymentDate := "2025-01-10", paymentMode := "cash", status := "completed" }

/-- `find?` commutes with a map that does not change the predicate's verdict. -/
theorem find?_map_comm {α : Type} (f : α → α) (p : α → Bool)
    (hpf : ∀ a, p (f a) = p a) :
    ∀ l : List α, (l.map f).find? p = (l.find? p).map f := by
  intro l
  induction l with
  | nil => rfl
  | cons a t ih =>
    by_cases h : p a = true
    · simp [List.find?_cons, hpf, h]
    · simp only [Bool.not_eq_true] at h
      simp [List.find?_cons, hpf, h, ih]

/-- `filter` commutes with a map that does not change the predicate's verdict. -/
theorem filter_map_comm {α : Type} (f : α → α) (p : α → Bool)
    (hpf : ∀ a, p (f a) = p a) :
    ∀ l : List α, (l.map f).filter p = (l.filter p).map f := by
  intro l
  induction l with
  | nil => rfl
  | cons a t ih =>
    by_cases h : p a = true
    · simp [List.filter_cons, hpf, h, ih]
    · simp only [Bool.not_eq_true] at h
      simp [List.filter_cons, hpf, h, ih]

/-- `createStudent` touches neither subscriptions nor the subscription counter. -/
theorem createStudent_subscriptions (s : Store) (d : InsertStudent) :
    (createStudent s d).1.subscriptions = s.subscriptions := rfl

/-- Store well-formedness only looks at the subscription table and counter. -/
theorem storeInv_of_eq (s s' : Store)
    (h1 : s'.subscriptions = s.subscriptions)
    (h2 : s'.nextSubscriptionId = s.nextSubscriptionId)
    (h : StoreInv s) : StoreInv s' := by
  unfold StoreInv at h ⊢
  rw [h1, h2]
  exact h

/-- Mapping the subscription table with an id-preserving, `subOk`-preserving
function keeps the store well-formed. -/
theorem storeInv_map (s : Store) (f : Subscription → Subscription)
    (hid : ∀ b, (f b).id = b.id)
    (hok : ∀ b ∈ s.subscriptions, subOk b → subOk (f b))
    (h : StoreInv s) :
    StoreInv { s with subscriptions := s.subscriptions.map f } := by
  obtain ⟨hn, hpend, hbound, hpair⟩ := h
  refine ⟨hn, ?_, ?_, ?_⟩
  · intro b hb
    obtain ⟨a, ha, rfl⟩ := List.mem_map.mp hb
    exact hok a ha (hpend a ha)
  · intro b hb
    obtain ⟨a, ha, rfl⟩ := List.mem_map.mp hb
    rw [hid]
    exact hbound a ha
  · refine List.pairwise_map.mpr ?_
    refine hpair.imp ?_
    intro a b hab
    simpa [Function.onFun, hid] using hab

/-- Inserting a subscription row whose pending amount satisfies the formula
keeps the store well-formed. -/
theorem storeInv_createSubscription (s : Store) (d : InsertSubscription)
    (hd : d.pendingAmount = max 0 (d.subscriptionCost - d.paidAmount - d.discount))
    (h : StoreInv s) : StoreInv (createSubscription s d).1 := by
  obtain ⟨hn, hpend, hbound, hpair⟩ := h
  refine ⟨Nat.le_succ_of_le hn, ?_, ?_, ?_⟩
  · intro b hb
    rcases List.mem_append.mp hb with hb | hb
    · exact hpend b hb
    · rcases List.mem_singleton.mp hb with rfl
      exact hd
  · intro b hb
    rcases List.mem_append.mp hb with hb | hb
    · obtain ⟨h1, h2⟩ := hbound b hb
      exact ⟨h1, Nat.lt_succ_of_lt h2⟩
    · rcases List.mem_singleton.mp hb with rfl
      exact ⟨hn, Nat.lt_succ_self _⟩
  · refine List.pairwise_append.mpr ⟨hpair, List.pairwise_singleton _ _, ?_⟩
    intro a ha b hb
    rcases List.mem_singleton.mp hb with rfl
    exact Nat.ne_of_lt (hbound a ha).2

/-- Characterization of `createPayment`'s effect on the subscription table:
either untouched, or — when the payment carries a truthy `subscriptionId` whose
subscription exists — every row with that id is rewritten by `payUpd`. -/
theorem createPayment_fst_char (s : Store) (p : InsertPayment) :
    ((createPayment s p).1.subscriptions = s.subscriptions ∧
     (createPayment s p).1.nextSubscriptionId = s.nextSubscriptionId) ∨
    ∃ sid sub, p.subscriptionId = some sid ∧ sid ≠ 0 ∧
      getSubscription s sid = some sub ∧
      (createPayment s p).1.subscriptions = s.subscriptions.map (payUpd p sub sid) ∧
      (createPayment s p).1.nextSubscriptionId = s.nextSubscriptionId := by
  rcases hsid : p.subscriptionId with _ | sid
  · left
    simp [createPayment, hsid]
  · by_cases h0 : sid = 0
    · left
      simp [createPayment, hsid, h0]
    · rcases hfind : getSubscription s sid with _ | sub
      · left
        unfold getSubscription at hfind
        simp [createPayment, hsid, h0, getSubscription, hfind]
      · right
        refine ⟨sid, sub, rfl, h0, hfind, ?_, ?_⟩
        · unfold getSubscription at hfind
          simp [createPayment, hsid, h0, getSubscription, hfind, payUpd]
        · unfold getSubscription at hfind
          simp [createPayment, hsid, h0, getSubscription, hfind]

/-- `createPayment` keeps the store well-formed. -/
theorem storeInv_createPayment (s : Store) (p : InsertPayment) (h : StoreInv s) :
    StoreInv (createPayment s p).1 := by
  rcases createPayment_fst_char s p with ⟨h1, h2⟩ | ⟨sid, sub, _, _, hfind, h1, h2⟩
  · exact storeInv_of_eq s _ h1 h2 h
  · have hsubmem : sub ∈ s.subscriptions := by
      unfold getSubscription at hfind
      exact List.mem_of_find?_eq_some hfind
    have hsubid : sub.id = sid := by
      unfold getSubscription at hfind
      simpa using List.find?_some hfind
    have hmap : StoreInv { s with subscriptions := s.subscriptions.map (payUpd p sub sid) } := by
      refine storeInv_map s _ ?_ ?_ h
      · intro b
        unfold payUpd
        split <;> rfl
      · intro b hb hbok
        unfold payUpd
        by_cases hid : b.id = sid
        · have hbu : b = sub := by
            by_cases hbs : b = sub
            · exact hbs
            · exfalso
              have hsym : Symmetric (fun a b : Subscription => a.id ≠ b.id) := by
                intro x y hxy
                exact fun he => hxy he.symm
              exact (List.Pairwise.forall hsym h.2.2.2 hb hsubmem hbs)
                (hid.trans hsubid.symm)
          subst hbu
          simp only [hid, beq_self_eq_true, if_true]
          unfold subOk
          rfl
        · simp only [beq_iff_eq, hid, if_false]
          exact hbok
    exact storeInv_of_eq _ _ (by rw [h1]) (by rw [h2]) hmap

/-- `subOk` only looks at the money fields, so status rewrites preserve it. -/
theorem subOk_setStatus (b : Subscription) (st : String) (h : subOk b) :
    subOk { b with status := st } := h

/-- `cancelSubscription` keeps the store well-formed. -/
theorem storeInv_cancelSubscription (s : Store) (id : Nat) (h : StoreInv s) :
    StoreInv (cancelSubscription s id) := by
  unfold cancelSubscription
  refine storeInv_map s _ ?_ ?_ h
  · intro b
    split <;> rfl
  · intro b _ hbok
    split
    · exact hbok
    · exact hbok

/-- `closeSubscription` keeps the store well-formed. -/
theorem storeInv_closeSubscription (s : Store) (id : Nat) (h : StoreInv s) :
    StoreInv (closeSubscription s id) := by
  unfold closeSubscription
  refine storeInv_map s _ ?_ ?_ h
  · intro b
    split <;> rfl
  · intro b _ hbok
    split
    · exact hbok
    · exact hbok

/-- `createRegistration` keeps the store well-formed. -/
theorem storeInv_createRegistration (s : Store) (r : RegistrationRequest)
    (h : StoreInv s) : StoreInv (createRegistration s r).1 := by
  unfold createRegistration
  dsimp only
  split
  · apply storeInv_createPayment
    exact storeInv_createSubscription _ _ rfl (storeInv_of_eq s _ rfl rfl h)
  · exact storeInv_createSubscription _ _ rfl (storeInv_of_eq s _ rfl rfl h)

/-- `renewHandler` keeps the store well-formed. -/
theorem storeInv_renewHandler (s : Store) (r : RenewRequest) (h : StoreInv s) :
    StoreInv (renewHandler s r).1 := by
  unfold renewHandler
  rcases getActiveSubscriptionByStudent s r.studentId with _ | activeSub
  · exact h
  · dsimp only
    have hmid : StoreInv { s with subscriptions := s.subscriptions.map (fun b =>
        if b.studentId == r.studentId && b.status == "active" then
          { b with status := "expired" } else b) } := by
      refine storeInv_map s _ ?_ ?_ h
      · intro b
        split <;> rfl
      · intro b _ hbok
        split
        · exact hbok
        · exact hbok
    split
    · apply storeInv_createPayment
      exact storeInv_createSubscription _ _ rfl hmid
    · exact storeInv_createSubscription _ _ rfl hmid

/-- Every single ledger operation keeps the store well-formed. -/
theorem storeInv_applyOp (s : Store) (op : Op) (h : StoreInv s) :
    StoreInv (applyOp s op) := by
  cases op with
  | register r => exact storeInv_createRegistration s r h
  | payment p => exact storeInv_createPayment s p h
  | renew r => exact storeInv_renewHandler s r h
  | cancel i => exact storeInv_cancelSubscription s i h
  | close i => exact storeInv_closeSubscription s i h

/-- The empty store is well-formed. -/
theorem storeInv_emptyStore : StoreInv emptyStore := by
  refine ⟨le_refl 1, ?_, ?_, ?_⟩ <;> simp [emptyStore]

/-- Every store produced by a sequence of ledger operations is well-formed. -/
theorem runOps_storeInv (ops : List Op) : StoreInv (runOps ops) := by
  unfold runOps
  have hfold : ∀ (l : List Op) (s : Store), StoreInv s → StoreInv (l.foldl applyOp s) := by
    intro l
    induction l with
    | nil => exact fun s hs => hs
    | cons op t ih => exact fun s hs => ih _ (storeInv_applyOp s op hs)
  exact hfold ops emptyStore storeInv_emptyStore

/-- Every reachable store is well-formed. -/
theorem reachable_storeInv (s : Store) (h : Reachable s) : StoreInv s := by
  obtain ⟨ops, rfl⟩ := h
  exact runOps_storeInv ops

/-- `createPayment`'s returned row: exactly the inserted payment. -/
theorem createPayment_snd (s : Store) (p : InsertPayment) :
    (createPayment s p).2 =
      { id := s.nextPaymentId, libraryId := p.libraryId, studentId := p.studentId,
        subscriptionId := p.subscriptionId, amount := p.amount,
        paymentDate := p.paymentDate, paymentMode := p.paymentMode,
        status := p.status, isActive := true } := rfl

/-- `createPayment` appends its returned row to the payments table. -/
theorem createPayment_payments (s : Store) (p : InsertPayment) :
    (createPayment s p).1.payments = s.payments ++ [(createPayment s p).2] := by
  rw [createPayment_snd]
  unfold createPayment
  dsimp only
  split
  · rfl
  · split
    · rfl
    · split
      · rfl
      · rfl

/-- When the payment's `subscriptionId` is a truthy id whose subscription row is
found, the whole table is rewritten by `payUpd`. -/
theorem createPayment_fst_of_found (s : Store) (p : InsertPayment) (sid : Nat)
    (sub : Subscription) (hsid : p.subscriptionId = some sid) (h0 : sid ≠ 0)
    (hfind : getSubscription s sid = some sub) :
    (createPayment s p).1.subscriptions = s.subscriptions.map (payUpd p sub sid) := by
  unfold getSubscription at hfind
  simp [createPayment, hsid, h0, getSubscription, hfind, payUpd]

/-- C3: in every state reachable from the empty store by any sequence of ledger
operations (registration, payment application, renewal, cancellation, closure),
every subscription row satisfies
`pendingAmount = max 0 (subscriptionCost - paidAmount - discount)`. -/
theorem pending_invariant_reachable (ops : List Op) (sub : Subscription)
    (hmem : sub ∈ (runOps ops).subscriptions) :
    sub.pendingAmount = max 0 (sub.subscriptionCost - sub.paidAmount - sub.discount) :=
  (runOps_storeInv ops).2.1 sub hmem

/-- Witness for C3: the subscription created by the example registration (which
ends with `paidAmount = 800`, `pendingAmount = 200` after the initial payment is
applied on top of the registration write) satisfies the invariant. -/
theorem pending_invariant_reachable_witness :
    ∃ sub, sub ∈ (runOps [Op.register regExample]).subscriptions ∧
      sub.pendingAmount = max 0 (sub.subscriptionCost - sub.paidAmount - sub.discount) :=
  ⟨_, List.mem_cons_self _ _,
    pending_invariant_reachable [Op.register regExample] _ (List.mem_cons_self _ _)⟩

/-- C2: for a reachable store holding a subscription with id `sid` (paidAmount
X, cost C, discount D) and a `createPayment` call carrying `subscriptionId =
sid` and amount P, afterwards that subscription row has `paidAmount = X + P`
and `pendingAmount = max 0 (C - (X + P) - D)`, which is never negative, and the
inserted payment row records amount P. -/
theorem createPayment_applies_amount (s : Store) (p : InsertPayment) (sid : Nat)
    (sub : Subscription) (hreach : Reachable s)
    (hsid : p.subscriptionId = some sid)
    (hfind : getSubscription s sid = some sub) :
    getSubscription (createPayment s p).1 sid =
      some { sub with
        paidAmount := sub.paidAmount + p.amount,
        pendingAmount :=
          max 0 (sub.subscriptionCost - (sub.paidAmount + p.amount) - sub.discount) } ∧
    (0:ℚ) ≤ max 0 (sub.subscriptionCost - (sub.paidAmount + p.amount) - sub.discount) ∧
    (createPayment s p).2.amount = p.amount ∧
    (createPayment s p).2 ∈ (createPayment s p).1.payments := by
  have hmem : sub ∈ s.subscriptions := by
    unfold getSubscription at hfind
    exact List.mem_of_find?_eq_some hfind
  have hsubid : sub.id = sid := by
    unfold getSubscription at hfind
    simpa using List.find?_some hfind
  have h0 : sid ≠ 0 := by
    have h1 := ((reachable_storeInv s hreach).2.2.1 sub hmem).1
    omega
  have hsubs := createPayment_fst_of_found s p sid sub hsid h0 hfind
  refine ⟨?_, le_max_left _ _, ?_, ?_⟩
  · unfold getSubscription at hfind ⊢
    rw [hsubs, find?_map_comm (payUpd p sub sid) _ ?hpf, hfind]
    case hpf =>
      intro b
      unfold payUpd
      split <;> rfl
    rw [Option.map_some']
    unfold payUpd
    rw [if_pos (by simpa using hsubid)]
  · rw [createPayment_snd]
  · rw [createPayment_payments]
    exact List.mem_append_right _ (List.mem_singleton_self _)

/-- Witness for C2: applying a payment of 100 to the subscription produced by
the example registration yields `paidAmount = 900`, `pendingAmount = 100`. -/
theorem createPayment_applies_amount_witness :
    ∃ sub, getSubscription (runOps [Op.register regExample]) 1 = some sub ∧
      getSubscription (createPayment (runOps [Op.register regExample]) payExample).1 1 =
        some { sub with
          paidAmount := sub.paidAmount + payExample.amount,
          pendingAmount :=
            max 0 (sub.subscriptionCost - (sub.paidAmount + payExample.amount) - sub.discount) } :=
  ⟨_, rfl,
    (createPayment_applies_amount (runOps [Op.register regExample]) payExample 1 _
      ⟨[Op.register regExample], rfl⟩ rfl rfl).1⟩

/-- C1 (registration bookkeeping): registering on the empty store with
cost 1000, paid 400, discount 0 leaves the stored subscription with
`paidAmount = 800` and `pendingAmount = 200` — the handler writes
`paidAmount = 400`, `pendingAmount = 600` and then `createPayment` adds the
same 400 again — not the claimed `paidAmount = 400` / `pendingAmount = 600`. -/
theorem registration_double_counts_initial_payment :
    regExample.subscriptionCost = 1000 ∧ regExample.paidAmount = 400 ∧
    regExample.discount = 0 ∧ 0 < regExample.paidAmount ∧
    ∃ sub, getSubscription (createRegistration emptyStore regExample).1 1 = some sub ∧
      sub.paidAmount = 800 ∧ sub.pendingAmount = 200 := by
  refine ⟨rfl, rfl, rfl, by norm_num [regExample], _, rfl, ?_, ?_⟩ <;>
    norm_num [createRegistration, emptyStore, regExample, getSubscription,
      createStudent, createSubscription, createPayment, generateStudentId,
      getShiftsByLibrary, List.find?]

/-- C10 (student-code scoping): in a store where library 1 owns student id 1
and library 2 owns student id 2, `generateStudentId` for library 1 returns
`"STD000003"` — the query takes `MAX(id)` over the whole `students` table,
ignoring its `libraryId` argument — while the per-library rule of the claim
(`generateStudentIdSpec`) yields `"STD000002"`. -/
theorem generateStudentId_ignores_library :
    generateStudentId storeTwoLibraries 1 = "STD000003" ∧
    generateStudentIdSpec storeTwoLibraries 1 = "STD000002" :=
  ⟨rfl, rfl⟩

/-- C9 counterexample: the only seat of library 1 is active, has informational
status `"occupied"` (not `"blocked"`) and not a single allocation row exists,
so the claim's condition holds for it; yet `getVacantSeatsForShifts` omits it,
because the code additionally requires `seats.status == "vacant"`. -/
theorem getVacantSeats_omits_nonvacant_status_seat :
    vacantSpecSeat storeStatusOccupiedSeat 1 [1]
      { id := 1, libraryId := 1, seatNumber := 1, status := "occupied",
        isActive := true } ∧
    { id := 1, libraryId := 1, seatNumber := 1, status := "occupied",
        isActive := true } ∉ getVacantSeatsForShifts storeStatusOccupiedSeat 1 [1] := by
  constructor
  · refine ⟨by decide, by decide, ?_⟩
    intro a ha
    simp [storeStatusOccupiedSeat] at ha
  · decide

/-- C9 amended: a seat is returned by `getVacantSeatsForShifts` iff it is an
active seat of the library whose own status column equals `"vacant"` (so both
`"blocked"` and `"occupied"` status values exclude it) and no active occupied
allocation exists for it in any requested shift. -/
theorem getVacantSeatsForShifts_mem (s : Store) (libraryId : Nat)
    (shiftIds : List Nat) (st : Seat) :
    st ∈ getVacantSeatsForShifts s libraryId shiftIds ↔
      st ∈ s.seats ∧ st.libraryId = libraryId ∧ st.isActive = true ∧
      st.status = "vacant" ∧
      ¬ ∃ a ∈ s.seatAllocations, a.seatId = st.id ∧ a.shiftId ∈ shiftIds ∧
        a.status = "occupied" ∧ a.isActive = true := by
  unfold getVacantSeatsForShifts getSeatsByLibrary
  simp only [List.mem_filter, List.mem_map, Bool.and_eq_true, beq_iff_eq,
    Bool.not_eq_true', List.contains_eq_any_beq, List.any_eq_false,
    List.elem_iff, not_exists, not_and]
  constructor
  · rintro ⟨⟨hmem, hlib, hact⟩, hnotocc, hstat⟩
    refine ⟨hmem, hlib, hact, hstat, ?_⟩
    intro a ha haseat hashift hastat haact
    exact hnotocc a.seatId
      ⟨a, ⟨ha, ⟨List.any_eq_true.mpr ⟨a.shiftId, hashift, by simp⟩, hastat⟩, haact⟩, rfl⟩
      haseat.symm
  · rintro ⟨hmem, hlib, hact, hstat, hnone⟩
    refine ⟨⟨hmem, hlib, hact⟩, ?_, hstat⟩
    intro x hex hst
    obtain ⟨a, ⟨ha, ⟨hany, hastat⟩, haact⟩, haseat⟩ := hex
    obtain ⟨y, hy, hbeq⟩ := List.any_eq_true.mp hany
    have hsy : a.shiftId = y := by simpa using hbeq
    exact hnone a ha (haseat.trans hst.symm) (hsy ▸ hy) hastat haact

/-- C4 (conflict check missing): in `storeOccupied`, seat 1 already has an
active occupied allocation for shift 1, and `regExample` requests exactly
shift 1 on seat 1; the `POST /api/students` handler nevertheless creates the
student and an active subscription on seat 1 — it contains no occupancy
re-check and no Conflict outcome at all. -/
theorem registration_ignores_occupied_seat :
    (∃ a, a ∈ storeOccupied.seatAllocations ∧ a.seatId = regExample.seatId ∧
      a.shiftId ∈ regExample.shiftIds ∧ a.status = "occupied" ∧
      a.isActive = true) ∧
    (createRegistration storeOccupied regExample).1.students.length = 2 ∧
    (createRegistration storeOccupied regExample).1.subscriptions.length = 1 ∧
    ∃ sub, getSubscription (createRegistration storeOccupied regExample).1 1 = some sub ∧
      sub.seatId = regExample.seatId ∧ sub.status = "active" := by
  refine ⟨by decide, rfl, rfl, _, rfl, rfl, rfl⟩

/-- C5 (persisted rows): a successful registration on `storeSeatShift`
(requesting shift 1, seat 1, with paidAmount 400 > 0) creates the student row,
the active subscription row and one payment row dated at plan start — but not a
single seat-allocation row: the handler never calls `createSeatAllocation`. -/
theorem registration_creates_no_allocations :
    (createRegistration storeSeatShift regExample).1.seatAllocations = [] ∧
    (createRegistration storeSeatShift regExample).1.students.length = 1 ∧
    (createRegistration storeSeatShift regExample).1.subscriptions.length = 1 ∧
    ∃ pay, (createRegistration storeSeatShift regExample).1.payments = [pay] ∧
      pay.amount = regExample.paidAmount ∧
      pay.paymentDate = regExample.planStartDate := by
  refine ⟨rfl, rfl, rfl, _, rfl, rfl, rfl⟩

/-- C8 counterexample: cancelling the active subscription 1 (whose student 1
holds an active occupied allocation on its seat 1 / shift 1) sets the row's
status to `"cancelled"` but leaves the allocation table byte-for-byte
unchanged: the allocation stays `isActive = true`, `status = "occupied"`. -/
theorem cancel_keeps_allocation_active :
    getSubscription (cancelSubscription (storeWithSub "active") 1) 1 =
      some (subWithStatus "cancelled") ∧
    (cancelSubscription (storeWithSub "active") 1).seatAllocations =
      (storeWithSub "active").seatAllocations ∧
    ∃ a, a ∈ (cancelSubscription (storeWithSub "active") 1).seatAllocations ∧
      a.studentId = (subWithStatus "active").studentId ∧
      a.seatId = (subWithStatus "active").seatId ∧
      a.shiftId ∈ (subWithStatus "active").shiftIds ∧
      a.isActive = true ∧ a.status = "occupied" :=
  ⟨rfl, rfl, by decide⟩

/-- C8 amended: `cancelSubscription` rewrites the matching row's status to
`"cancelled"` and performs no other write — in particular the seat-allocation
table is untouched, so the seat is NOT freed at the allocation level. -/
theorem cancelSubscription_effect (s : Store) (i : Nat) :
    (cancelSubscription s i).seatAllocations = s.seatAllocations ∧
    ∀ (k : Nat) (sub : Subscription), s.subscriptions[k]? = some sub →
      (cancelSubscription s i).subscriptions[k]? =
        some (if sub.id == i then { sub with status := "cancelled" } else sub) := by
  refine ⟨rfl, ?_⟩
  intro k sub hk
  unfold cancelSubscription
  dsimp only
  rw [List.getElem?_map, hk, Option.map_some']

/-- Witness for the amended C8: in the concrete cancelled store, row 0 is the
cancelled version of the active subscription and allocations are untouched. -/
theorem cancelSubscription_effect_witness :
    (cancelSubscription (storeWithSub "active") 1).seatAllocations =
      (storeWithSub "active").seatAllocations ∧
    (cancelSubscription (storeWithSub "active") 1).subscriptions[0]? =
      some (if (subWithStatus "active").id == 1 then
        { subWithStatus "active" with status := "cancelled" }
      else subWithStatus "active") :=
  ⟨(cancelSubscription_effect (storeWithSub "active") 1).1,
   (cancelSubscription_effect (storeWithSub "active") 1).2 0 (subWithStatus "active") rfl⟩

/-- C7 counterexample: subscription 1 is already terminal (`"expired"`), yet
cancelling it again does not fail — the route always reports success and the
row's status is rewritten from `"expired"` to `"cancelled"`, so the row is not
left unchanged and no StateError exists; renewal of the same student is
rejected as a 404 NotFound, not a StateError. -/
theorem cancel_terminal_rewrites_row :
    getSubscription (cancelSubscription (storeWithSub "expired") 1) 1 =
      some (subWithStatus "cancelled") ∧
    ("cancelled" : String) ≠ "expired" ∧
    renewHandler (storeWithSub "expired") renewExample =
      (storeWithSub "expired", RenewResult.notFound) :=
  ⟨rfl, by decide, rfl⟩

/-- `renewSubscription` expires the student's active rows then appends the new
row (definitional restatement). -/
theorem renewSubscription_fst_subscriptions (s : Store) (sid : Nat)
    (d : InsertSubscription) :
    (renewSubscription s sid d).1.subscriptions =
      s.subscriptions.map (expireUpd sid) ++ [(renewSubscription s sid d).2] := rfl

/-- Whatever branch `createPayment` takes, the subscription table is the image
of a map that changes only the money fields of rows. -/
theorem createPayment_subscriptions_exists_map (s : Store) (p : InsertPayment) :
    ∃ g : Subscription → Subscription,
      (∀ b, (g b).id = b.id ∧ (g b).studentId = b.studentId ∧
            (g b).status = b.status ∧ (g b).seatId = b.seatId ∧
            (g b).shiftIds = b.shiftIds) ∧
      (createPayment s p).1.subscriptions = s.subscriptions.map g := by
  rcases createPayment_fst_char s p with ⟨h1, _⟩ | ⟨sid, sub, _, _, _, h1, _⟩
  · refine ⟨id, fun b => ⟨rfl, rfl, rfl, rfl, rfl⟩, ?_⟩
    rw [h1, List.map_id]
  · refine ⟨payUpd p sub sid, ?_, h1⟩
    intro b
    unfold payUpd
    split <;> exact ⟨rfl, rfl, rfl, rfl, rfl⟩

/-- C7 amended: there is no StateError anywhere in the code. Cancelling (and
the spec-modelled closing) succeed unconditionally on any row, terminal or not,
rewriting only the status; renewing a student with no active subscription is
rejected as 404 NotFound; and neither operation ever moves an existing row's
status — in particular a terminal row never returns to `"active"`. -/
theorem terminal_state_transitions :
    (∀ (s : Store) (i k : Nat) (sub : Subscription),
        s.subscriptions[k]? = some sub →
        ∃ sub', (cancelSubscription s i).subscriptions[k]? = some sub' ∧
          (sub' = { sub with status := "cancelled" } ∨ sub' = sub)) ∧
    (∀ (s : Store) (i k : Nat) (sub : Subscription),
        s.subscriptions[k]? = some sub →
        ∃ sub', (closeSubscription s i).subscriptions[k]? = some sub' ∧
          (sub' = { sub with status := "closed" } ∨ sub' = sub)) ∧
    (∀ (s : Store) (r : RenewRequest),
        getActiveSubscriptionByStudent s r.studentId = none →
        renewHandler s r = (s, RenewResult.notFound)) ∧
    (∀ (s : Store) (r : RenewRequest) (k : Nat) (sub : Subscription),
        s.subscriptions[k]? = some sub → sub.status ≠ "active" →
        ∃ sub', (renewHandler s r).1.subscriptions[k]? = some sub' ∧
          sub'.status = sub.status) := by
  refine ⟨?_, ?_, ?_, ?_⟩
  · intro s i k sub hk
    unfold cancelSubscription
    dsimp only
    rw [List.getElem?_map, hk, Option.map_some']
    refine ⟨_, rfl, ?_⟩
    split
    · exact Or.inl rfl
    · exact Or.inr rfl
  · intro s i k sub hk
    unfold closeSubscription
    dsimp only
    rw [List.getElem?_map, hk, Option.map_some']
    refine ⟨_, rfl, ?_⟩
    split
    · exact Or.inl rfl
    · exact Or.inr rfl
  · intro s r h
    simp [renewHandler, h]
  · intro s r k sub hk hstat
    rcases hact : getActiveSubscriptionByStudent s r.studentId with _ | act
    · refine ⟨sub, ?_, rfl⟩
      simp [renewHandler, hact, hk]
    · have hlt : k < s.subscriptions.length := by
        rcases List.getElem?_eq_some.mp hk with ⟨h, -⟩
        exact h
      have hexp : expireUpd r.studentId sub = sub := by
        unfold expireUpd
        rw [if_neg]
        simp [hstat]
      unfold renewHandler
      rw [hact]
      dsimp only
      by_cases hpaid : 0 < r.paidAmount
      · rw [if_pos hpaid]
        obtain ⟨g, hg, hmap⟩ := createPayment_subscriptions_exists_map _ _
        rw [hmap, renewSubscription_fst_subscriptions, List.map_append,
          List.getElem?_append_left (by simpa using hlt),
          List.getElem?_map, List.getElem?_map, hk, Option.map_some',
          Option.map_some']
        exact ⟨_, rfl, by rw [(hg _).2.2.1, hexp]⟩
      · rw [if_neg hpaid]
        rw [renewSubscription_fst_subscriptions,
          List.getElem?_append_left (by simpa using hlt),
          List.getElem?_map, hk, Option.map_some']
        exact ⟨_, rfl, by rw [hexp]⟩

/-- Witness for the amended C7: on the store whose only subscription is already
cancelled, cancelling again yields a row (no failure), and renewal is rejected
as NotFound. -/
theorem terminal_state_transitions_witness :
    (∃ sub', (cancelSubscription (storeWithSub "cancelled") 1).subscriptions[0]? =
        some sub' ∧
      (sub' = { subWithStatus "cancelled" with status := "cancelled" } ∨
        sub' = subWithStatus "cancelled")) ∧
    renewHandler (storeWithSub "cancelled") renewExample =
      (storeWithSub "cancelled", RenewResult.notFound) :=
  ⟨terminal_state_transitions.1 (storeWithSub "cancelled") 1 0
      (subWithStatus "cancelled") rfl,
   terminal_state_transitions.2.2.1 (storeWithSub "cancelled") renewExample rfl⟩

/-- Shape of the subscription table after a renewal (expire-map, append of the
new row, then a money-only rewrite `g`): length grows by one, exactly one row
of the student is active, and the prior active row's position now holds an
`"expired"` row. -/
theorem renew_post_shape (l : List Subscription) (sid : Nat)
    (old newRow : Subscription) (g : Subscription → Subscription)
    (hg : ∀ b, (g b).studentId = b.studentId ∧ (g b).status = b.status)
    (hfil : l.filter (fun b => b.studentId == sid && b.status == "active") = [old])
    (hnewStud : newRow.studentId = sid) (hnewStat : newRow.status = "active") :
    (((l.map (expireUpd sid)) ++ [newRow]).map g).length = l.length + 1 ∧
    ((((l.map (expireUpd sid)) ++ [newRow]).map g).filter
        (fun b => b.studentId == sid && b.status == "active")).length = 1 ∧
    ∀ k : Nat, l[k]? = some old →
      ∃ oldRow, (((l.map (expireUpd sid)) ++ [newRow]).map g)[k]? = some oldRow ∧
        oldRow.status = "expired" := by
  have hpf : ∀ b, ((g b).studentId == sid && (g b).status == "active") =
      (b.studentId == sid && b.status == "active") := by
    intro b
    rw [(hg b).1, (hg b).2]
  refine ⟨by simp, ?_, ?_⟩
  · rw [filter_map_comm g _ hpf, List.filter_append]
    have hnil : (l.map (expireUpd sid)).filter
        (fun b => b.studentId == sid && b.status == "active") = [] := by
      rw [List.filter_eq_nil_iff]
      intro b' hb'
      obtain ⟨b, hb, rfl⟩ := List.mem_map.mp hb'
      by_cases hcond : (b.studentId == sid && b.status == "active") = true
      · have hbold : b = old := by
          have hmem : b ∈ l.filter (fun b => b.studentId == sid && b.status == "active") :=
            List.mem_filter.mpr ⟨hb, hcond⟩
          rw [hfil] at hmem
          simpa using hmem
        subst hbold
        unfold expireUpd
        rw [if_pos hcond]
        simp
      · unfold expireUpd
        rw [if_neg hcond]
        exact hcond
    rw [hnil]
    have hone : List.filter (fun b => b.studentId == sid && b.status == "active")
        [newRow] = [newRow] := by
      simp [List.filter_cons, hnewStud, hnewStat]
    rw [hone]
    simp
  · intro k hk
    have hlt : k < l.length := by
      rcases List.getElem?_eq_some.mp hk with ⟨h, -⟩
      exact h
    rw [List.map_append, List.getElem?_append_left (by simpa using hlt),
      List.getElem?_map, List.getElem?_map, hk, Option.map_some', Option.map_some']
    refine ⟨_, rfl, ?_⟩
    have hcondOld : (old.studentId == sid && old.status == "active") = true := by
      have hmem : old ∈ l.filter (fun b => b.studentId == sid && b.status == "active") := by
        rw [hfil]
        exact List.mem_cons_self _ _
      exact (List.mem_filter.mp hmem).2
    rw [(hg _).2]
    unfold expireUpd
    rw [if_pos hcondOld]

/-- `renew_post_shape` specialized to no trailing money rewrite. -/
theorem renew_post_shape_id (l : List Subscription) (sid : Nat)
    (old newRow : Subscription)
    (hfil : l.filter (fun b => b.studentId == sid && b.status == "active") = [old])
    (hnewStud : newRow.studentId = sid) (hnewStat : newRow.status = "active") :
    ((l.map (expireUpd sid)) ++ [newRow]).length = l.length + 1 ∧
    (((l.map (expireUpd sid)) ++ [newRow]).filter
        (fun b => b.studentId == sid && b.status == "active")).length = 1 ∧
    ∀ k : Nat, l[k]? = some old →
      ∃ oldRow, ((l.map (expireUpd sid)) ++ [newRow])[k]? = some oldRow ∧
        oldRow.status = "expired" := by
  have h := renew_post_shape l sid old newRow id (fun b => ⟨rfl, rfl⟩)
    hfil hnewStud hnewStat
  rwa [List.map_id] at h

/-- C6: for a student whose subscription table contains exactly one row with
status `"active"` (and that row is `isActive`), the renewal route marks that
prior row `"expired"` — not `"renewed"` — inserts exactly one new row with
status `"active"` and the same `seatId` and `shiftIds` as the predecessor, and
afterwards the student again has exactly one active subscription. No
availability check appears anywhere: the theorem needs no hypothesis about the
seat-allocation table. -/
theorem renewHandler_renews_exactly_one (s : Store) (r : RenewRequest)
    (old : Subscription)
    (h1 : s.subscriptions.filter
        (fun b => b.studentId == r.studentId && b.status == "active") = [old])
    (h2 : old.isActive = true) :
    ∃ (newSub : Subscription) (s' : Store),
      renewHandler s r = (s', RenewResult.renewed newSub) ∧
      newSub.seatId = old.seatId ∧ newSub.shiftIds = old.shiftIds ∧
      newSub.status = "active" ∧
      s'.subscriptions.length = s.subscriptions.length + 1 ∧
      (s'.subscriptions.filter
          (fun b => b.studentId == r.studentId && b.status == "active")).length = 1 ∧
      ∀ k : Nat, s.subscriptions[k]? = some old →
        ∃ oldRow, s'.subscriptions[k]? = some oldRow ∧
          oldRow.status = "expired" := by
  have hOldFil : old ∈ s.subscriptions.filter
      (fun b => b.studentId == r.studentId && b.status == "active") := by
    rw [h1]
    exact List.mem_cons_self _ _
  have hOldMem : old ∈ s.subscriptions := (List.mem_filter.mp hOldFil).1
  have hOldCond : (old.studentId == r.studentId && old.status == "active") = true :=
    (List.mem_filter.mp hOldFil).2
  have hact : getActiveSubscriptionByStudent s r.studentId = some old := by
    unfold getActiveSubscriptionByStudent
    rcases hfq : s.subscriptions.find?
        (fun b => b.studentId == r.studentId && b.status == "active" && b.isActive)
      with _ | a
    · exfalso
      exact List.find?_eq_none.mp hfq old hOldMem (by simp [hOldCond, h2])
    · have hpa := List.find?_some hfq
      have hma := List.mem_of_find?_eq_some hfq
      have hcondA : (a.studentId == r.studentId && a.status == "active") = true := by
        simp only [Bool.and_eq_true] at hpa
        simp only [Bool.and_eq_true]
        exact hpa.1
      have haold : a = old := by
        have hmem : a ∈ s.subscriptions.filter
            (fun b => b.studentId == r.studentId && b.status == "active") :=
          List.mem_filter.mpr ⟨hma, hcondA⟩
        rw [h1] at hmem
        simpa using hmem
      rw [← haold]
      exact hfq
  unfold renewHandler
  rw [hact]
  dsimp only
  by_cases hpaid : 0 < r.paidAmount
  · rw [if_pos hpaid]
    obtain ⟨g, hg, hmap⟩ := createPayment_subscriptions_exists_map _ _
    refine ⟨_, _, rfl, rfl, rfl, rfl, ?_, ?_, ?_⟩
    · rw [hmap, renewSubscription_fst_subscriptions]
      exact (renew_post_shape s.subscriptions r.studentId old _ g
        (fun b => ⟨(hg b).2.1, (hg b).2.2.1⟩) h1 rfl rfl).1
    · rw [hmap, renewSubscription_fst_subscriptions]
      exact (renew_post_shape s.subscriptions r.studentId old _ g
        (fun b => ⟨(hg b).2.1, (hg b).2.2.1⟩) h1 rfl rfl).2.1
    · intro k hk
      rw [hmap, renewSubscription_fst_subscriptions]
      exact (renew_post_shape s.subscriptions r.studentId old _ g
        (fun b => ⟨(hg b).2.1, (hg b).2.2.1⟩) h1 rfl rfl).2.2 k hk
  · rw [if_neg hpaid]
    refine ⟨_, _, rfl, rfl, rfl, rfl, ?_, ?_, ?_⟩
    · rw [renewSubscription_fst_subscriptions]
      exact (renew_post_shape_id s.subscriptions r.studentId old _ h1 rfl rfl).1
    · rw [renewSubscription_fst_subscriptions]
      exact (renew_post_shape_id s.subscriptions r.studentId old _ h1 rfl rfl).2.1
    · intro k hk
      rw [renewSubscription_fst_subscriptions]
      exact (renew_post_shape_id s.subscriptions r.studentId old _ h1 rfl rfl).2.2 k hk

/-- Witness for C6: renewing student 1 in the store whose only subscription is
the active row yields a new active subscription on the same seat and shifts,
with the prior row expired. -/
theorem renewHandler_renews_exactly_one_witness :
    ∃ (newSub : Subscription) (s' : Store),
      renewHandler (storeWithSub "active") renewExample =
        (s', RenewResult.renewed newSub) ∧
      newSub.seatId = (subWithStatus "active").seatId ∧
      newSub.shiftIds = (subWithStatus "active").shiftIds ∧
      newSub.status = "active" ∧
      s'.subscriptions.length = (storeWithSub "active").subscriptions.length + 1 ∧
      (s'.subscriptions.filter (fun b =>
          b.studentId == renewExample.studentId && b.status == "active")).length = 1 ∧
      ∀ k : Nat, (storeWithSub "active").subscriptions[k]? =
          some (subWithStatus "active") →
        ∃ oldRow, s'.subscriptions[k]? = some oldRow ∧
          oldRow.status = "expired" :=
  renewHandler_renews_exactly_one (storeWithSub "active") renewExample
    (subWithStatus "active") rfl rfl
